import Mathlib

/-!
Verification of the flight-scheduling conflict engine of a charter-flight
dashboard.  The engine's functions (`checkFlightConflict`,
`findConflictingFlights`, `getAircraftAvailability` from the conflict utility
module, `FlightService.isPilotAvailable` from the flight service, and the
booking handler `handleAddFlight`) are shallowly embedded below.  Timestamps
are modelled as integers (instants, e.g. milliseconds since the epoch): the
source stores ISO-8601 strings and compares them through `new Date(...)`,
i.e. numerically as instants.
-/

/-- Flight status enumeration from the repository's `Flight` type. -/
inductive FlightStatus where
  | scheduled
  | in_progress
  | completed
  | cancelled
deriving DecidableEq, Repr

/-- The fields of the repository's `Flight` record that the scheduling engine
reads.  Presentational fields (origin, destination, notes, audit timestamps,
...) are never consulted by the conflict logic and are omitted.
`captain_id` / `first_officer_id` are optional in the source. -/
structure Flight where
  id : String
  aircraft_id : String
  captain_id : Option String
  first_officer_id : Option String
  departure_time : Int
  arrival_time : Int
  status : FlightStatus
deriving DecidableEq, Repr

/-- The fields of the repository's `NewFlight` record (a candidate flight,
not yet persisted: no `id`, no `status`) that the engine reads. -/
structure NewFlight where
  aircraft_id : String
  captain_id : Option String
  first_officer_id : Option String
  departure_time : Int
  arrival_time : Int
deriving DecidableEq, Repr

/-- The fields of the repository's `Aircraft` record read by the
availability summary. -/
structure Aircraft where
  id : String
  tail_number : String
deriving DecidableEq, Repr

/-- Spec §4.1 overlap predicate on half-open intervals:
`[aStart, aEnd)` and `[bStart, bEnd)` overlap iff
`aStart < bEnd AND aEnd > bStart`. -/
def overlaps (aStart aEnd bStart bEnd : Int) : Bool :=
  decide (aStart < bEnd) && decide (aEnd > bStart)

/-- `checkFlightConflict` from the conflict utility module: filter the
existing flights to the candidate's aircraft with status `scheduled`, then
test `newStart < existingEnd && newEnd > existingStart` against each. -/
def checkFlightConflict (newFlight : NewFlight) (existingFlights : List Flight) : Bool :=
  let aircraftFlights := existingFlights.filter fun flight =>
    flight.aircraft_id == newFlight.aircraft_id && flight.status == FlightStatus.scheduled
  aircraftFlights.any fun flight =>
    decide (newFlight.departure_time < flight.arrival_time) &&
      decide (newFlight.arrival_time > flight.departure_time)

/-- First-occurrence deduplication, the semantics of the source's
`[...new Set(existingFlights.map(f => f.aircraft_id))]`: fold the list into
an accumulator, appending each element not already present. -/
def setDedup (l : List String) : List String :=
  l.foldl (fun acc x => if x ∈ acc then acc else acc ++ [x]) []

/-- `findConflictingFlights` from the conflict utility module: when
`aircraftId` is given check only that aircraft, otherwise every aircraft
occurring in `existingFlights` (first-occurrence order, via a `Set`); for
each aircraft filter to its `scheduled` flights and keep those whose interval
overlaps `[startTime, endTime)`; the per-aircraft results are pushed into one
output list. -/
def findConflictingFlights (startTime endTime : Int) (aircraftId : Option String)
    (existingFlights : List Flight) : List Flight :=
  let aircraftToCheck : List String := match aircraftId with
    | some a => [a]
    | none => setDedup (existingFlights.map (fun f => f.aircraft_id))
  (aircraftToCheck.map fun currentAircraftId =>
    let aircraftFlights := existingFlights.filter fun flight =>
      flight.aircraft_id == currentAircraftId && flight.status == FlightStatus.scheduled
    aircraftFlights.filter fun flight =>
      decide (startTime < flight.arrival_time) && decide (endTime > flight.departure_time)).flatten

/-- Ordering used by the availability summary's sort: ascending
`departure_time` (the source comparator
`(a, b) => new Date(a.departure_time).getTime() - new Date(b.departure_time).getTime()`). -/
def flightLe (a b : Flight) : Prop := a.departure_time ≤ b.departure_time

instance : DecidableRel flightLe := fun a b => Int.decLe a.departure_time b.departure_time

instance : IsTotal Flight flightLe := ⟨fun a b => Int.le_total a.departure_time b.departure_time⟩

instance : IsTrans Flight flightLe := ⟨fun _ _ _ h h' => Int.le_trans h h'⟩

/-- The filter inside `getAircraftAvailability`: flights of this aircraft
with status `scheduled` whose `departure_time` is strictly after `now`. -/
def futureScheduled (aircraft : Aircraft) (flights : List Flight) (now : Int) : List Flight :=
  flights.filter fun flight =>
    flight.aircraft_id == aircraft.id && flight.status == FlightStatus.scheduled &&
      decide (flight.departure_time > now)

/-- `getAircraftAvailability` from the conflict utility module.  The source
reads the implicit current time (`new Date()`) — passed here explicitly as
`now` — filters to this aircraft's future scheduled flights, sorts them
ascending by `departure_time` (JavaScript's stable sort, modelled by a stable
insertion sort), and reports `"Available"` when none remain, otherwise
`"Next: "` followed by the formatted departure time of the first.
`formatDateTime` calls `toLocaleString()`, a locale-dependent rendering of
the instant, modelled by the explicit formatting argument `fmt`. -/
def getAircraftAvailability (fmt : Int → String) (aircraft : Aircraft)
    (flights : List Flight) (now : Int) : String :=
  let aircraftFlights := List.insertionSort flightLe (futureScheduled aircraft flights now)
  match aircraftFlights with
  | [] => "Available"
  | nextFlight :: _ => "Next: " ++ fmt nextFlight.departure_time

/-- `FlightService.isPilotAvailable` from the flight service.  The source
issues one query over the `flights` table — modelled here by filtering the
list `flights` — whose PostgREST filters are conjoined:
`.or(captain_id.eq.P, first_officer_id.eq.P)`, `.eq(status, scheduled)`,
`.or(departure_time.lt.arrivalTime, arrival_time.gt.departureTime)`, and,
when `excludeFlightId` is given, `.neq(id, excludeFlightId)`.  Note the time
filter of the source is a DISJUNCTION of the two comparisons.  The function
returns whether no row matches. -/
def isPilotAvailable (pilotId : String) (departureTime arrivalTime : Int)
    (excludeFlightId : Option String) (flights : List Flight) : Bool :=
  let rows := flights.filter fun f =>
    (f.captain_id == some pilotId || f.first_officer_id == some pilotId) &&
      f.status == FlightStatus.scheduled &&
      (decide (f.departure_time < arrivalTime) || decide (f.arrival_time > departureTime)) &&
      (match excludeFlightId with
        | some ex => f.id != ex
        | none => true)
  rows.length == 0

/-- The dashboard component's state touched by `handleAddFlight`:
the two flight lists kept in React state, plus the record of
`flightService.createFlight` persistence calls made so far. -/
structure BookingState where
  flights : List Flight
  allFlights : List Flight
  persistedFlights : List NewFlight
deriving Repr

/-- `handleAddFlight` from the dashboard component: if
`checkFlightConflict(newFlight, allFlights)` holds it throws
"Flight conflicts with existing schedule" (re-thrown by the surrounding
catch) before `flightService.createFlight` is reached; otherwise it persists
the flight and appends the created record to both state lists.  `create`
models the database assigning the persisted record. -/
def handleAddFlight (create : NewFlight → Flight) (newFlight : NewFlight)
    (st : BookingState) : Option String × BookingState :=
  if checkFlightConflict newFlight st.allFlights then
    (some "Flight conflicts with existing schedule", st)
  else
    let created := create newFlight
    (none,
      { flights := st.flights ++ [created]
        allFlights := st.allFlights ++ [created]
        persistedFlights := st.persistedFlights ++ [newFlight] })

theorem checkFlightConflict_eq_true (nf : NewFlight) (fs : List Flight) :
    checkFlightConflict nf fs = true ↔
      ∃ f ∈ fs, f.aircraft_id = nf.aircraft_id ∧ f.status = FlightStatus.scheduled ∧
        nf.departure_time < f.arrival_time ∧ nf.arrival_time > f.departure_time := by
  simp only [checkFlightConflict, List.any_eq_true, List.mem_filter, Bool.and_eq_true,
    beq_iff_eq, decide_eq_true_eq, gt_iff_lt]
  constructor
  · rintro ⟨f, ⟨hmem, ha, hs⟩, h1, h2⟩
    exact ⟨f, hmem, ha, hs, h1, h2⟩
  · rintro ⟨f, hmem, ha, hs, h1, h2⟩
    exact ⟨f, ⟨hmem, ha, hs⟩, h1, h2⟩

theorem mem_findConflictingFlights_some (s e : Int) (aid : String) (fs : List Flight)
    (f : Flight) :
    f ∈ findConflictingFlights s e (some aid) fs ↔
      f ∈ fs ∧ f.aircraft_id = aid ∧ f.status = FlightStatus.scheduled ∧
        s < f.arrival_time ∧ e > f.departure_time := by
  simp only [findConflictingFlights, List.map_cons, List.map_nil, List.flatten,
    List.append_nil, List.mem_filter, Bool.and_eq_true, beq_iff_eq, decide_eq_true_eq,
    gt_iff_lt]
  constructor
  · rintro ⟨⟨hmem, ha, hs⟩, h1, h2⟩
    exact ⟨hmem, ha, hs, h1, h2⟩
  · rintro ⟨hmem, ha, hs, h1, h2⟩
    exact ⟨⟨hmem, ha, hs⟩, h1, h2⟩

/-- C1: `checkFlightConflict` returns `true` iff some existing flight with the
candidate's `aircraft_id` and status `scheduled` has a half-open time window
overlapping the candidate's:
`candidate.departure_time < flight.arrival_time` and
`candidate.arrival_time > flight.departure_time`. -/
theorem checkFlightConflict_iff_overlap (nf : NewFlight) (fs : List Flight) :
    checkFlightConflict nf fs = true ↔
      ∃ f ∈ fs, f.aircraft_id = nf.aircraft_id ∧ f.status = FlightStatus.scheduled ∧
        nf.departure_time < f.arrival_time ∧ nf.arrival_time > f.departure_time :=
  checkFlightConflict_eq_true nf fs

/-- C4: the boolean check `checkFlightConflict` agrees with non-emptiness of
`findConflictingFlights` run for the candidate's window and aircraft. -/
theorem checkFlightConflict_iff_findConflictingFlights_ne_nil (nf : NewFlight)
    (fs : List Flight) :
    checkFlightConflict nf fs = true ↔
      findConflictingFlights nf.departure_time nf.arrival_time (some nf.aircraft_id) fs ≠ [] := by
  rw [checkFlightConflict_eq_true, Ne, List.eq_nil_iff_forall_not_mem]
  push_neg
  constructor
  · rintro ⟨f, hmem, ha, hs, h1, h2⟩
    exact ⟨f, (mem_findConflictingFlights_some _ _ _ _ _).mpr ⟨hmem, ha, hs, h1, h2⟩⟩
  · rintro ⟨f, hf⟩
    obtain ⟨hmem, ha, hs, h1, h2⟩ := (mem_findConflictingFlights_some _ _ _ _ _).mp hf
    exact ⟨f, hmem, ha, hs, h1, h2⟩

/-- C5: back-to-back half-open intervals do not overlap — `overlaps` is false
on `[t0, t1)` vs `[t1, t2)`, and a candidate that only abuts an existing
flight at a shared boundary yields no conflict. -/
theorem overlap_boundary_exclusive (t0 t1 t2 : Int) (_h01 : t0 < t1) (_h12 : t1 < t2) :
    overlaps t0 t1 t1 t2 = false ∧
      ∀ (nf : NewFlight) (f : Flight),
        nf.arrival_time = f.departure_time ∨ nf.departure_time = f.arrival_time →
        checkFlightConflict nf [f] = false := by
  refine ⟨by simp [overlaps], ?_⟩
  intro nf f h
  rw [← Bool.not_eq_true, checkFlightConflict_eq_true]
  rintro ⟨g, hg, -, -, hlt, hgt⟩
  rcases List.mem_singleton.mp hg with rfl
  rcases h with h | h
  · rw [h] at hgt
    exact lt_irrefl _ hgt
  · rw [h] at hlt
    exact lt_irrefl _ hlt

/-- C9: `checkFlightConflict` is monotone in the existing-flight snapshot —
enlarging the list can only introduce conflicts. -/
theorem checkFlightConflict_monotone (nf : NewFlight) (F G : List Flight)
    (hsub : ∀ f ∈ F, f ∈ G) (h : checkFlightConflict nf F = true) :
    checkFlightConflict nf G = true := by
  rw [checkFlightConflict_eq_true] at h ⊢
  obtain ⟨f, hf, hrest⟩ := h
  exact ⟨f, hsub f hf, hrest⟩

theorem foldl_dedup_mem (l : List String) :
    ∀ (acc : List String) (a : String),
      (a ∈ l.foldl (fun acc x => if x ∈ acc then acc else acc ++ [x]) acc ↔
        a ∈ acc ∨ a ∈ l) := by
  induction l with
  | nil => intro acc a; simp
  | cons x xs ih =>
    intro acc a
    simp only [List.foldl_cons, List.mem_cons]
    by_cases hx : x ∈ acc
    · rw [if_pos hx, ih]
      constructor
      · rintro (h | h)
        · exact Or.inl h
        · exact Or.inr (Or.inr h)
      · rintro (h | rfl | h)
        · exact Or.inl h
        · exact Or.inl hx
        · exact Or.inr h
    · rw [if_neg hx, ih]
      simp [List.mem_append, or_assoc]

theorem mem_setDedup (a : String) (l : List String) : a ∈ setDedup l ↔ a ∈ l := by
  rw [setDedup, foldl_dedup_mem]
  simp

theorem foldl_dedup_nodup (l : List String) :
    ∀ acc : List String, acc.Nodup →
      (l.foldl (fun acc x => if x ∈ acc then acc else acc ++ [x]) acc).Nodup := by
  induction l with
  | nil => intro acc h; simpa using h
  | cons x xs ih =>
    intro acc h
    simp only [List.foldl_cons]
    by_cases hx : x ∈ acc
    · rw [if_pos hx]; exact ih acc h
    · rw [if_neg hx]
      refine ih _ ?_
      simp [List.nodup_append, h, hx]

theorem setDedup_nodup (l : List String) : (setDedup l).Nodup :=
  foldl_dedup_nodup l [] List.nodup_nil

theorem mem_findConflictingFlights_none (s e : Int) (fs : List Flight) (f : Flight) :
    f ∈ findConflictingFlights s e none fs ↔
      f ∈ fs ∧ f.status = FlightStatus.scheduled ∧ s < f.arrival_time ∧
        e > f.departure_time := by
  simp only [findConflictingFlights, List.mem_flatten, List.mem_map]
  constructor
  · rintro ⟨L, ⟨aid, haid, rfl⟩, hf⟩
    simp only [List.mem_filter, Bool.and_eq_true, beq_iff_eq, decide_eq_true_eq] at hf
    obtain ⟨⟨hmem, _, hs⟩, h1, h2⟩ := hf
    exact ⟨hmem, hs, h1, h2⟩
  · rintro ⟨hmem, hs, h1, h2⟩
    refine ⟨_, ⟨f.aircraft_id, ?_, rfl⟩, ?_⟩
    · exact (mem_setDedup _ _).mpr (List.mem_map_of_mem _ hmem)
    · refine List.mem_filter.mpr ⟨List.mem_filter.mpr ⟨hmem, ?_⟩, ?_⟩
      · simp [hs]
      · simp [h1, h2]

theorem findConflictingFlights_none_nodup (s e : Int) (fs : List Flight) (h : fs.Nodup) :
    (findConflictingFlights s e none fs).Nodup := by
  simp only [findConflictingFlights]
  rw [List.nodup_flatten]
  constructor
  · intro L hL
    simp only [List.mem_map] at hL
    obtain ⟨aid, -, rfl⟩ := hL
    exact (h.filter _).filter _
  · rw [List.pairwise_map]
    refine List.Pairwise.imp ?_ (setDedup_nodup _)
    intro a b hab x hxa hxb
    simp only [List.mem_filter, Bool.and_eq_true, beq_iff_eq, decide_eq_true_eq] at hxa hxb
    exact hab (hxa.1.2.1.symm.trans hxb.1.2.1)

/-- C3: with no aircraft selected, `findConflictingFlights` returns exactly
the `scheduled` flights (across all aircraft) overlapping the window, each
appearing exactly once (the result has no duplicates whenever the snapshot
has none); `cancelled`, `completed` and `in_progress` flights never appear. -/
theorem findConflictingFlights_all_aircraft_spec (s e : Int) (fs : List Flight)
    (hnd : fs.Nodup) :
    (∀ f, f ∈ findConflictingFlights s e none fs ↔
        f ∈ fs ∧ f.status = FlightStatus.scheduled ∧ s < f.arrival_time ∧
          e > f.departure_time)
      ∧ (findConflictingFlights s e none fs).Nodup
      ∧ ∀ f ∈ findConflictingFlights s e none fs,
          f.status ≠ FlightStatus.cancelled ∧ f.status ≠ FlightStatus.completed ∧
            f.status ≠ FlightStatus.in_progress := by
  refine ⟨fun f => mem_findConflictingFlights_none s e fs f,
    findConflictingFlights_none_nodup s e fs hnd, ?_⟩
  intro f hf
  have hs := ((mem_findConflictingFlights_none s e fs f).mp hf).2.1
  rw [hs]
  exact ⟨by decide, by decide, by decide⟩

/-- A scheduled flight on aircraft `a1`, window `[0, 10)`. -/
def schedFlightA : Flight :=
  ⟨"f1", "a1", none, none, 0, 10, FlightStatus.scheduled⟩

/-- A cancelled flight on aircraft `a2`, window `[0, 10)`. -/
def cancFlightB : Flight :=
  ⟨"f2", "a2", none, none, 0, 10, FlightStatus.cancelled⟩

/-- Witness for C3 at the window `[5, 15)` over a duplicate-free snapshot. -/
theorem findConflictingFlights_all_aircraft_spec_witness :
    ([schedFlightA, cancFlightB] : List Flight).Nodup ∧
      (findConflictingFlights 5 15 none [schedFlightA, cancFlightB]).Nodup :=
  ⟨by decide,
    (findConflictingFlights_all_aircraft_spec 5 15 [schedFlightA, cancFlightB] (by decide)).2.1⟩

theorem next_ne_available (s : String) : "Next: " ++ s ≠ "Available" := by
  obtain ⟨d⟩ := s
  intro h
  have h2 := congrArg String.data h
  exact absurd (show ('N' : Char) = 'A' from congrArg List.headI h2) (by decide)

/-- C7: `getAircraftAvailability` reports `"Available"` iff the aircraft has
no `scheduled` flight departing strictly after `now`; otherwise it reports
`"Next: "` followed by the formatted departure time of a filtered flight of
minimal `departure_time`. -/
theorem getAircraftAvailability_spec (fmt : Int → String) (ac : Aircraft)
    (flights : List Flight) (now : Int) :
    (getAircraftAvailability fmt ac flights now = "Available" ↔
        futureScheduled ac flights now = [])
      ∧ (futureScheduled ac flights now ≠ [] →
          ∃ f ∈ futureScheduled ac flights now,
            (∀ g ∈ futureScheduled ac flights now, f.departure_time ≤ g.departure_time) ∧
              getAircraftAvailability fmt ac flights now =
                "Next: " ++ fmt f.departure_time) := by
  have hperm := List.perm_insertionSort flightLe (futureScheduled ac flights now)
  have hsort := List.sorted_insertionSort flightLe (futureScheduled ac flights now)
  cases hS : List.insertionSort flightLe (futureScheduled ac flights now) with
  | nil =>
    rw [hS] at hperm
    have hL : futureScheduled ac flights now = [] := hperm.symm.eq_nil
    have hval : getAircraftAvailability fmt ac flights now = "Available" := by
      simp only [getAircraftAvailability, hS]
    exact ⟨by simp [hval, hL], fun hne => absurd hL hne⟩
  | cons f rest =>
    rw [hS] at hperm hsort
    have hval : getAircraftAvailability fmt ac flights now =
        "Next: " ++ fmt f.departure_time := by
      simp only [getAircraftAvailability, hS]
    have hfmem : f ∈ futureScheduled ac flights now :=
      hperm.mem_iff.mp (List.mem_cons_self f rest)
    constructor
    · rw [hval]
      constructor
      · intro h; exact absurd h (next_ne_available _)
      · intro h; rw [h] at hfmem; cases hfmem
    · intro _
      refine ⟨f, hfmem, ?_, hval⟩
      intro g hg
      rcases List.mem_cons.mp (hperm.mem_iff.mpr hg) with rfl | hgrest
      · exact le_refl _
      · exact List.rel_of_sorted_cons hsort g hgrest

/-- C10: any scheduled flight departing at or before `now` is excluded by the
strict `departure_time > now` filter, so an aircraft all of whose scheduled
flights have already departed — in particular one mid-flight, departed at or
before `now` and arriving after `now` — is reported `"Available"`. -/
theorem getAircraftAvailability_midflight_available (fmt : Int → String) (ac : Aircraft)
    (flights : List Flight) (now : Int)
    (h : ∀ f ∈ flights, f.aircraft_id = ac.id → f.status = FlightStatus.scheduled →
      f.departure_time ≤ now) :
    getAircraftAvailability fmt ac flights now = "Available" := by
  have hL : futureScheduled ac flights now = [] := by
    rw [futureScheduled, List.filter_eq_nil_iff]
    intro f hf hcond
    simp only [Bool.and_eq_true, beq_iff_eq, decide_eq_true_eq, gt_iff_lt] at hcond
    exact absurd hcond.2 (not_lt.mpr (h f hf hcond.1.1 hcond.1.2))
  simp only [getAircraftAvailability, hL]
  rfl

/-- The identifier of the pilot used in the availability counterexamples. -/
def pilotOne : String := "p1"

/-- A scheduled flight flown by pilot `p1` as captain on aircraft `a1`,
window `[0, 10)`. -/
def pilotPastFlight : Flight :=
  ⟨"f1", "a1", some "p1", none, 0, 10, FlightStatus.scheduled⟩

/-- A later scheduled flight flown by pilot `p1` as captain on aircraft `a1`,
window `[100, 110)`. -/
def pilotLaterFlight : Flight :=
  ⟨"f2", "a1", some "p1", none, 100, 110, FlightStatus.scheduled⟩

/-- C2 (code bug): the service's time filter is a disjunction
`departure_time < arrivalTime OR arrival_time > departureTime`, not the
overlap conjunction of the spec.  Pilot `p1`'s only scheduled flight occupies
`[0, 10)`, which does not overlap the queried window `[20, 30)`, yet
`isPilotAvailable` reports the pilot unavailable. -/
theorem isPilotAvailable_disjunction_bug :
    isPilotAvailable pilotOne 20 30 none [pilotPastFlight] = false ∧
      overlaps pilotPastFlight.departure_time pilotPastFlight.arrival_time 20 30 = false := by
  decide

/-- C6 (code bug): with the edited flight `f1` excluded, the only flight of
pilot `p1` overlapping `[0, 10)` is `f1` itself, so the spec's
exclusion-idempotence property demands `true`; but the disjunctive time
filter also matches the non-overlapping flight `f2`, so the code returns
`false`. -/
theorem isPilotAvailable_exclusion_bug :
    isPilotAvailable pilotOne 0 10 (some "f1") [pilotPastFlight, pilotLaterFlight] = false ∧
      overlaps pilotLaterFlight.departure_time pilotLaterFlight.arrival_time 0 10 = false := by
  decide

/-- C8: when the candidate conflicts with the current snapshot, the booking
handler returns the error and leaves the state — in particular the record of
`createFlight` persistence calls — unchanged. -/
theorem handleAddFlight_conflict_no_persist (create : NewFlight → Flight)
    (newFlight : NewFlight) (st : BookingState)
    (h : checkFlightConflict newFlight st.allFlights = true) :
    handleAddFlight create newFlight st =
      (some "Flight conflicts with existing schedule", st) := by
  simp [handleAddFlight, h]

/-- The candidate used by the conflict witnesses: aircraft `a1`,
window `[5, 15)`, overlapping `schedFlightA`. -/
def overlappingCandidate : NewFlight := ⟨"a1", none, none, 5, 15⟩

/-- Persistence model used by the booking witness: the database materializes
the candidate as a scheduled flight with a fresh id. -/
def mkCreated (nf : NewFlight) : Flight :=
  ⟨"fNew", nf.aircraft_id, nf.captain_id, nf.first_officer_id, nf.departure_time,
    nf.arrival_time, FlightStatus.scheduled⟩

/-- Dashboard state holding one scheduled flight on aircraft `a1`. -/
def stBooking : BookingState := ⟨[], [schedFlightA], []⟩

/-- Witness for C8: the overlapping candidate is rejected and the state is
returned untouched. -/
theorem handleAddFlight_conflict_no_persist_witness :
    checkFlightConflict overlappingCandidate stBooking.allFlights = true ∧
      handleAddFlight mkCreated overlappingCandidate stBooking =
        (some "Flight conflicts with existing schedule", stBooking) :=
  ⟨by decide,
    handleAddFlight_conflict_no_persist mkCreated overlappingCandidate stBooking (by decide)⟩

/-- Witness for C9: a conflict against the singleton snapshot survives
enlarging the snapshot. -/
theorem checkFlightConflict_monotone_witness :
    checkFlightConflict overlappingCandidate [schedFlightA] = true ∧
      checkFlightConflict overlappingCandidate [schedFlightA, cancFlightB] = true :=
  ⟨by decide,
    checkFlightConflict_monotone overlappingCandidate [schedFlightA]
      [schedFlightA, cancFlightB] (by decide) (by decide)⟩

/-- A scheduled flight on aircraft `a1`, window `[0, 1)`. -/
def flEarly : Flight := ⟨"f0", "a1", none, none, 0, 1, FlightStatus.scheduled⟩

/-- A candidate on aircraft `a1` departing exactly when `flEarly` arrives:
window `[1, 2)`. -/
def backToBackCandidate : NewFlight := ⟨"a1", none, none, 1, 2⟩

/-- Witness for C5 at `t0 = 0 < t1 = 1 < t2 = 2`: the abutting intervals do
not overlap and the back-to-back candidate raises no conflict. -/
theorem overlap_boundary_exclusive_witness :
    overlaps 0 1 1 2 = false ∧ checkFlightConflict backToBackCandidate [flEarly] = false :=
  ⟨(overlap_boundary_exclusive 0 1 2 (by decide) (by decide)).1,
    (overlap_boundary_exclusive 0 1 2 (by decide) (by decide)).2 backToBackCandidate flEarly
      (Or.inr (by decide))⟩

/-- Formatting function used by the availability witnesses: render the
instant as its decimal numeral. -/
def fmtDefault : Int → String := fun t => toString t

/-- The aircraft `a1` used by the availability witnesses. -/
def acA : Aircraft := ⟨"a1", "N100"⟩

/-- A scheduled flight on aircraft `a1` that departed at `0` and arrives at
`10`: mid-flight at `now = 5`. -/
def midFlight : Flight := ⟨"f3", "a1", none, none, 0, 10, FlightStatus.scheduled⟩

/-- Witness for C7: the availability summary applied at a concrete instant
and snapshot. -/
theorem getAircraftAvailability_spec_witness :
    (getAircraftAvailability fmtDefault acA [midFlight] 5 = "Available" ↔
      futureScheduled acA [midFlight] 5 = []) :=
  (getAircraftAvailability_spec fmtDefault acA [midFlight] 5).1

/-- Witness for C10: an aircraft whose only scheduled flight spans
`[0, 10)` is reported `"Available"` at `now = 5`, mid-flight. -/
theorem getAircraftAvailability_midflight_available_witness :
    getAircraftAvailability fmtDefault acA [midFlight] 5 = "Available" :=
  getAircraftAvailability_midflight_available fmtDefault acA [midFlight] 5 (by decide)
